import Mathlib

/-!
Verification of the arithmetic contract of `shoop.utils._united_decimal`.

The Python module defines `UnitedDecimal`, a `decimal.Decimal` subclass tagged
with a unit (one concrete subclass per unit), and `UnitMixupError`, a
`TypeError` subclass raised when a binary operation mixes non-matching units.

Embedding choices:
 - A `UnitedDecimal` instance is a unit tag plus an exact rational magnitude
   (`ℚ` stands for the arbitrary-precision decimal primitive; the claims are
   stated "within exact decimal arithmetic").
 - The other operand of a binary operation is either another `UnitedDecimal`
   or a plain (unit-less) number: type `Operand`.
 - `unit_matches_with` is abstract in the source (`raise NotImplementedError`);
   every operation here is parameterised by a matching rule `m : MatchRule`,
   and the typical concrete rule of the subclasses is modelled separately.
 - `raise` becomes `Except UDError`; the Python exception-class hierarchy
   relevant to the module (`class UnitMixupError(TypeError)`) is embedded as
   `ExcKind` with its superclass chain.
 - Decimal division by zero raises in Python; it is embedded as the
   `zeroDivision` error value.
-/

/-- Unit tags distinguishing the concrete `UnitedDecimal` subclasses; the two
named tags mirror the subclasses used throughout the module's documentation,
and `otherUnit n` stands for any further concrete subclass. -/
inductive UnitTag where
  | taxfulPrice
  | taxlessPrice
  | otherUnit (n : Nat)
deriving DecidableEq

/-- Name of the concrete subclass carrying a tag; stands for
`type(self).__name__` in the source's error messages and `__repr__`. -/
def unitTagName : UnitTag → String
  | .taxfulPrice => "TaxfulPrice"
  | .taxlessPrice => "TaxlessPrice"
  | .otherUnit n => "Unit" ++ toString n

/-- Embeds an instance of a concrete `UnitedDecimal` subclass: the subclass
identity is the `unit` tag, the wrapped decimal magnitude is `value`
(the source's `value` property returns the unit-stripped decimal). -/
structure UnitedDecimal where
  unit : UnitTag
  value : ℚ

/-- Embeds `UnitedDecimal.new`: `type(self)(value)` — a new instance of the
same concrete subclass (same unit) carrying the given magnitude. -/
def UnitedDecimal.new (a : UnitedDecimal) (v : ℚ) : UnitedDecimal :=
  ⟨a.unit, v⟩

/-- Plain-text rendering of a magnitude, standing for the decimal's digits in
`__repr__` output. -/
def ratRepr (q : ℚ) : String :=
  toString q.num ++ (if q.den = 1 then "" else "/" ++ toString q.den)

/-- Embeds `UnitedDecimal.__repr__`: the underlying decimal repr with the
generic type label replaced by the concrete subclass name. -/
def UnitedDecimal.reprStr (a : UnitedDecimal) : String :=
  unitTagName a.unit ++ "(" ++ ratRepr a.value ++ ")"

/-- The other operand of a binary operation: either another `UnitedDecimal`
instance or a plain unit-less number. -/
inductive Operand where
  | united (d : UnitedDecimal)
  | plain (q : ℚ)

/-- Numeric value of an operand, as the underlying decimal primitive sees it
when the source delegates to `super()`'s arithmetic. -/
def operandValue : Operand → ℚ
  | .united d => d.value
  | .plain q => q

/-- A concrete implementation of the abstract `unit_matches_with` method:
given the instance and the other operand, decide whether the units match. -/
abbrev MatchRule := UnitedDecimal → Operand → Bool

/-- Modelled from the spec: `unit_matches_with` is abstract in the source
(`raise NotImplementedError()`), and the concrete rule lives in subclasses
outside this module.  Per the spec, unit identity is structural — "two
instances share a unit if a type-defined predicate `unit_matches_with`
returns true (typically: same concrete variant)"; a plain non-UnitedDecimal
operand is never the same concrete variant. -/
def sameUnitMatcher : MatchRule := fun a other =>
  match other with
  | .united b => decide (a.unit = b.unit)
  | .plain _ => false

/-- Modelled from the spec: a permissive concrete `unit_matches_with` rule of
a hypothetical subclass that additionally "treats the plain number as
dimensionless magnitude" compatible with any unit, used to exercise the
right-hand addition/subtraction contract on plain operands. -/
def plainTolerantMatcher : MatchRule := fun a other =>
  match other with
  | .united b => decide (a.unit = b.unit)
  | .plain _ => true

/-- Errors an embedded operation can raise: `unitMixup` embeds
`UnitMixupError(obj1, obj2, msg)` (the instance variables `obj1`/`obj2` carry
both operands), `typeError` embeds a plain `TypeError(msg)`, and
`zeroDivision` embeds the underlying decimal primitive's division-by-zero
error. -/
inductive UDError where
  | unitMixup (obj1 : UnitedDecimal) (obj2 : Operand) (msg : String)
  | typeError (msg : String)
  | zeroDivision

/-- Embeds `UnitMixupError.__str__`: the message followed by the reprs of the
two stored operands. -/
def UDError.strForm : UDError → String
  | .unitMixup obj1 obj2 msg =>
      msg ++ ": " ++ obj1.reprStr ++ " vs " ++
        (match obj2 with
         | .united d => d.reprStr
         | .plain q => ratRepr q)
  | .typeError msg => msg
  | .zeroDivision => "division by zero"

/-- The Python exception classes relevant to the module. -/
inductive ExcKind where
  | baseException
  | exception
  | typeError
  | unitMixupError
  | arithmeticError
  | zeroDivisionError
deriving DecidableEq

/-- Immediate superclass of each exception class: `UnitMixupError` is declared
in the source as `class UnitMixupError(TypeError)`; the rest is Python's
built-in hierarchy. -/
def parentExc : ExcKind → Option ExcKind
  | .baseException => none
  | .exception => some .baseException
  | .typeError => some .exception
  | .unitMixupError => some .typeError
  | .arithmeticError => some .exception
  | .zeroDivisionError => some .arithmeticError

/-- Superclass chain of an exception class, collected with explicit fuel
(the hierarchy has depth at most 6). -/
def excAncestorsFuel : Nat → ExcKind → List ExcKind
  | 0, _ => []
  | n + 1, c =>
      c :: (match parentExc c with
            | none => []
            | some p => excAncestorsFuel n p)

/-- Superclass chain of an exception class, the class itself included. -/
def excAncestors (c : ExcKind) : List ExcKind :=
  excAncestorsFuel 6 c

/-- Embeds Python's `issubclass`: `c` is `d` or inherits from it. -/
def isSubclassOf (c d : ExcKind) : Bool :=
  decide (d ∈ excAncestors c)

/-- Exception class of each raised error value. -/
def UDError.excKind : UDError → ExcKind
  | .unitMixup _ _ _ => .unitMixupError
  | .typeError _ => .typeError
  | .zeroDivision => .zeroDivisionError

/-- Embeds `except Handler:` applicability: a raised error is caught by a
handler naming class `handler` iff the error's class is a subclass of it. -/
def catchableAs (e : UDError) (handler : ExcKind) : Bool :=
  isSubclassOf e.excKind handler

/-- Embeds `UnitedDecimal._check_units_match`: raise
`UnitMixupError(self, other)` (default message) unless
`self.unit_matches_with(other)`. -/
def UnitedDecimal.check_units_match (m : MatchRule) (a : UnitedDecimal)
    (other : Operand) : Except UDError Unit :=
  if m a other then .ok () else .error (.unitMixup a other "Unit mixup")

/-- Embeds `UnitedDecimal.__lt__`: check units, then delegate to the decimal
comparison. -/
def UnitedDecimal.lt (m : MatchRule) (a : UnitedDecimal) (other : Operand) :
    Except UDError Bool :=
  match a.check_units_match m other with
  | .error e => .error e
  | .ok _ => .ok (decide (a.value < operandValue other))

/-- Embeds `UnitedDecimal.__le__`. -/
def UnitedDecimal.le (m : MatchRule) (a : UnitedDecimal) (other : Operand) :
    Except UDError Bool :=
  match a.check_units_match m other with
  | .error e => .error e
  | .ok _ => .ok (decide (a.value ≤ operandValue other))

/-- Embeds `UnitedDecimal.__gt__`. -/
def UnitedDecimal.gt (m : MatchRule) (a : UnitedDecimal) (other : Operand) :
    Except UDError Bool :=
  match a.check_units_match m other with
  | .error e => .error e
  | .ok _ => .ok (decide (operandValue other < a.value))

/-- Embeds `UnitedDecimal.__ge__`. -/
def UnitedDecimal.ge (m : MatchRule) (a : UnitedDecimal) (other : Operand) :
    Except UDError Bool :=
  match a.check_units_match m other with
  | .error e => .error e
  | .ok _ => .ok (decide (operandValue other ≤ a.value))

/-- Embeds `UnitedDecimal.__eq__`: if units do not match return `False`
(no error), else delegate to decimal equality. -/
def UnitedDecimal.eq (m : MatchRule) (a : UnitedDecimal) (other : Operand) :
    Bool :=
  if ! m a other then false else decide (a.value = operandValue other)

/-- Embeds `UnitedDecimal.__ne__`: if units do not match return `True`
(no error), else delegate to decimal inequality. -/
def UnitedDecimal.ne (m : MatchRule) (a : UnitedDecimal) (other : Operand) :
    Bool :=
  if ! m a other then true else decide (a.value ≠ operandValue other)

/-- Embeds `UnitedDecimal.__add__`: check units, then
`self.new(super().__add__(other))`. -/
def UnitedDecimal.add (m : MatchRule) (a : UnitedDecimal) (other : Operand) :
    Except UDError UnitedDecimal :=
  match a.check_units_match m other with
  | .error e => .error e
  | .ok _ => .ok (a.new (a.value + operandValue other))

/-- Embeds `UnitedDecimal.__sub__`: check units, then
`self.new(super().__sub__(other))`. -/
def UnitedDecimal.sub (m : MatchRule) (a : UnitedDecimal) (other : Operand) :
    Except UDError UnitedDecimal :=
  match a.check_units_match m other with
  | .error e => .error e
  | .ok _ => .ok (a.new (a.value - operandValue other))

/-- Embeds `UnitedDecimal.__mul__`: multiplying with another `UnitedDecimal`
raises `TypeError` (no unit check at all); multiplying with a plain number
yields `self.new(super().__mul__(other))`. -/
def UnitedDecimal.mul (a : UnitedDecimal) (other : Operand) :
    Except UDError UnitedDecimal :=
  match other with
  | .united b =>
      .error (.typeError ("Cannot multiply " ++ a.reprStr ++ " with " ++ b.reprStr))
  | .plain q => .ok (a.new (a.value * q))

/-- Embeds `UnitedDecimal.__neg__`: `self.new(super().__neg__())`. -/
def UnitedDecimal.neg (a : UnitedDecimal) : UnitedDecimal :=
  a.new (-a.value)

/-- Embeds `UnitedDecimal.__pos__`: `self.new(super().__pos__())`. -/
def UnitedDecimal.pos (a : UnitedDecimal) : UnitedDecimal :=
  a.new a.value

/-- Embeds `UnitedDecimal.__radd__`: `self.__add__(other)`. -/
def UnitedDecimal.radd (m : MatchRule) (a : UnitedDecimal) (other : Operand) :
    Except UDError UnitedDecimal :=
  a.add m other

/-- Embeds `UnitedDecimal.__rsub__`: `(-self).__add__(other)`. -/
def UnitedDecimal.rsub (m : MatchRule) (a : UnitedDecimal) (other : Operand) :
    Except UDError UnitedDecimal :=
  a.neg.add m other

/-- Embeds `UnitedDecimal.__rmul__`: `self.__mul__(other)`. -/
def UnitedDecimal.rmul (a : UnitedDecimal) (other : Operand) :
    Except UDError UnitedDecimal :=
  a.mul other

/-- Embeds `UnitedDecimal.__truediv__`: against another `UnitedDecimal`,
check units and return the plain decimal quotient (no `new`); against a
plain number, return `self.new` of the quotient.  The underlying decimal
raises on a zero divisor. -/
def UnitedDecimal.truediv (m : MatchRule) (a : UnitedDecimal)
    (other : Operand) : Except UDError Operand :=
  match other with
  | .united b =>
      match a.check_units_match m (.united b) with
      | .error e => .error e
      | .ok _ =>
          if b.value = 0 then .error .zeroDivision
          else .ok (.plain (a.value / b.value))
  | .plain q =>
      if q = 0 then .error .zeroDivision
      else .ok (.united (a.new (a.value / q)))

/-- Embeds `UnitedDecimal.__rtruediv__`: first the
`isinstance(other, UnitedDecimal)` check (a plain operand raises
`TypeError`), then `self._check_units_match(other)`, then the plain decimal
quotient `other / self`. -/
def UnitedDecimal.rtruediv (m : MatchRule) (a : UnitedDecimal)
    (other : Operand) : Except UDError ℚ :=
  match other with
  | .plain _ =>
      .error (.typeError ("Cannot divide non-" ++ unitTagName a.unit ++
        " with " ++ unitTagName a.unit))
  | .united b =>
      match a.check_units_match m (.united b) with
      | .error e => .error e
      | .ok _ =>
          if a.value = 0 then .error .zeroDivision
          else .ok (b.value / a.value)

/-- Modelled from the spec: the ordering the spec claims for the
reverse-true-division path — "the unit-match check runs before the
is-the-operand-a-UnitedValue check".  This definition follows the spec's
words and is compared against `UnitedDecimal.rtruediv`, which embeds the
source's actual ordering. -/
def UnitedDecimal.rtruedivSpecOrdered (m : MatchRule) (a : UnitedDecimal)
    (other : Operand) : Except UDError ℚ :=
  match a.check_units_match m other with
  | .error e => .error e
  | .ok _ =>
      match other with
      | .plain _ =>
          .error (.typeError ("Cannot divide non-" ++ unitTagName a.unit ++
            " with " ++ unitTagName a.unit))
      | .united b =>
          if a.value = 0 then .error .zeroDivision
          else .ok (b.value / a.value)

/-- Truncation toward zero, the rounding the decimal primitive applies in
`__floordiv__` / `__mod__` / `__divmod__` (the integer part of the true
quotient; the remainder keeps the dividend's sign). -/
def decTrunc (q : ℚ) : ℤ :=
  if 0 ≤ q then ⌊q⌋ else ⌈q⌉

/-- Remainder of decimal division, paired with the truncating quotient:
`x - y * trunc(x / y)`. -/
def decRem (x y : ℚ) : ℚ :=
  x - y * (decTrunc (x / y) : ℚ)

/-- Embeds `UnitedDecimal.__floordiv__`: a non-`UnitedDecimal` operand raises
`TypeError`; then check units; the quotient is a plain decimal (no `new`). -/
def UnitedDecimal.floordiv (m : MatchRule) (a : UnitedDecimal)
    (other : Operand) : Except UDError ℚ :=
  match other with
  | .plain _ =>
      .error (.typeError ("Cannot floor-div " ++ unitTagName a.unit ++
        " with non-" ++ unitTagName a.unit))
  | .united b =>
      match a.check_units_match m (.united b) with
      | .error e => .error e
      | .ok _ =>
          if b.value = 0 then .error .zeroDivision
          else .ok ((decTrunc (a.value / b.value) : ℚ))

/-- Embeds `UnitedDecimal.__rfloordiv__`: a non-`UnitedDecimal` operand
raises `TypeError`; then check units; plain decimal quotient `other // self`. -/
def UnitedDecimal.rfloordiv (m : MatchRule) (a : UnitedDecimal)
    (other : Operand) : Except UDError ℚ :=
  match other with
  | .plain _ =>
      .error (.typeError ("Cannot floor-div non-" ++ unitTagName a.unit ++
        " with " ++ unitTagName a.unit))
  | .united b =>
      match a.check_units_match m (.united b) with
      | .error e => .error e
      | .ok _ =>
          if a.value = 0 then .error .zeroDivision
          else .ok ((decTrunc (b.value / a.value) : ℚ))

/-- Embeds `UnitedDecimal.__mod__`: a non-`UnitedDecimal` operand raises
`TypeError`; then check units; the remainder is wrapped by `self.new`
(it keeps the unit). -/
def UnitedDecimal.mod (m : MatchRule) (a : UnitedDecimal) (other : Operand) :
    Except UDError UnitedDecimal :=
  match other with
  | .plain _ =>
      .error (.typeError ("Cannot modulo " ++ unitTagName a.unit ++
        " with non-" ++ unitTagName a.unit))
  | .united b =>
      match a.check_units_match m (.united b) with
      | .error e => .error e
      | .ok _ =>
          if b.value = 0 then .error .zeroDivision
          else .ok (a.new (decRem a.value b.value))

/-- Embeds `UnitedDecimal.__divmod__`: a non-`UnitedDecimal` operand raises
`TypeError`; then check units; returns the pair of the plain decimal
quotient and the `self.new`-wrapped remainder. -/
def UnitedDecimal.divmod (m : MatchRule) (a : UnitedDecimal)
    (other : Operand) : Except UDError (ℚ × UnitedDecimal) :=
  match other with
  | .plain _ =>
      .error (.typeError ("Cannot divmod " ++ unitTagName a.unit ++
        " with non-" ++ unitTagName a.unit))
  | .united b =>
      match a.check_units_match m (.united b) with
      | .error e => .error e
      | .ok _ =>
          if b.value = 0 then .error .zeroDivision
          else .ok ((decTrunc (a.value / b.value) : ℚ),
                    a.new (decRem a.value b.value))

/-- Embeds `UnitedDecimal.__pow__`: unconditionally raises `TypeError`. -/
def UnitedDecimal.pow (a : UnitedDecimal) (_other : Operand) :
    Except UDError UnitedDecimal :=
  .error (.typeError (unitTagName a.unit ++ " cannot be powered"))

/-- C1: for every UnitedDecimal `a` and every operand `b` whose unit does not
match `a`'s (a `UnitedDecimal` of a different unit, `a.unit_matches_with(b)`
false), each of `a + b`, `a - b`, `a < b`, `a <= b`, `a > b`, `a >= b`,
`a // b`, `a % b` and `divmod(a, b)` fails with `UnitMixupError` carrying
both operands `(a, b)`. -/
theorem C1_mismatched_unit_ops_raise_unit_mixup (m : MatchRule)
    (a b : UnitedDecimal) (h : m a (.united b) = false) :
    a.add m (.united b) = .error (.unitMixup a (.united b) "Unit mixup") ∧
    a.sub m (.united b) = .error (.unitMixup a (.united b) "Unit mixup") ∧
    a.lt m (.united b) = .error (.unitMixup a (.united b) "Unit mixup") ∧
    a.le m (.united b) = .error (.unitMixup a (.united b) "Unit mixup") ∧
    a.gt m (.united b) = .error (.unitMixup a (.united b) "Unit mixup") ∧
    a.ge m (.united b) = .error (.unitMixup a (.united b) "Unit mixup") ∧
    a.floordiv m (.united b) = .error (.unitMixup a (.united b) "Unit mixup") ∧
    a.mod m (.united b) = .error (.unitMixup a (.united b) "Unit mixup") ∧
    a.divmod m (.united b) = .error (.unitMixup a (.united b) "Unit mixup") := by
  refine ⟨?_, ?_, ?_, ?_, ?_, ?_, ?_, ?_, ?_⟩ <;>
    simp [UnitedDecimal.add, UnitedDecimal.sub, UnitedDecimal.lt,
      UnitedDecimal.le, UnitedDecimal.gt, UnitedDecimal.ge,
      UnitedDecimal.floordiv, UnitedDecimal.mod, UnitedDecimal.divmod,
      UnitedDecimal.check_units_match, h]

/-- C1 witness: `TaxfulPrice(10)` against `TaxlessPrice(2)` under the
standard matching rule. -/
theorem C1_mismatched_unit_ops_raise_unit_mixup_witness :
    sameUnitMatcher (UnitedDecimal.mk .taxfulPrice 10)
      (.united (UnitedDecimal.mk .taxlessPrice 2)) = false ∧
    UnitedDecimal.add sameUnitMatcher (UnitedDecimal.mk .taxfulPrice 10)
      (.united (UnitedDecimal.mk .taxlessPrice 2)) =
      .error (.unitMixup (UnitedDecimal.mk .taxfulPrice 10)
        (.united (UnitedDecimal.mk .taxlessPrice 2)) "Unit mixup") ∧
    UnitedDecimal.divmod sameUnitMatcher (UnitedDecimal.mk .taxfulPrice 10)
      (.united (UnitedDecimal.mk .taxlessPrice 2)) =
      .error (.unitMixup (UnitedDecimal.mk .taxfulPrice 10)
        (.united (UnitedDecimal.mk .taxlessPrice 2)) "Unit mixup") :=
  ⟨rfl,
   (C1_mismatched_unit_ops_raise_unit_mixup sameUnitMatcher
      (UnitedDecimal.mk .taxfulPrice 10) (UnitedDecimal.mk .taxlessPrice 2)
      rfl).1,
   (C1_mismatched_unit_ops_raise_unit_mixup sameUnitMatcher
      (UnitedDecimal.mk .taxfulPrice 10) (UnitedDecimal.mk .taxlessPrice 2)
      rfl).2.2.2.2.2.2.2.2⟩

/-- C2: `==` and `!=` never raise: whenever the units do not match (also
against any plain non-UnitedDecimal operand) `==` returns false and `!=`
returns true; when the units match, both delegate to equality of the
underlying decimal magnitudes. -/
theorem C2_eq_ne_never_raise (m : MatchRule) (a : UnitedDecimal)
    (b : Operand) :
    (m a b = false → a.eq m b = false ∧ a.ne m b = true) ∧
    (m a b = true →
      a.eq m b = decide (a.value = operandValue b) ∧
      a.ne m b = decide (a.value ≠ operandValue b)) := by
  constructor
  · intro h
    simp [UnitedDecimal.eq, UnitedDecimal.ne, h]
  · intro h
    simp [UnitedDecimal.eq, UnitedDecimal.ne, h]

/-- C2 witness: a unit mismatch between equal magnitudes, a plain operand,
and a matching-unit comparison, under the standard matching rule. -/
theorem C2_eq_ne_never_raise_witness :
    UnitedDecimal.eq sameUnitMatcher (UnitedDecimal.mk .taxfulPrice 10)
      (.united (UnitedDecimal.mk .taxlessPrice 10)) = false ∧
    UnitedDecimal.ne sameUnitMatcher (UnitedDecimal.mk .taxfulPrice 10)
      (.united (UnitedDecimal.mk .taxlessPrice 10)) = true ∧
    UnitedDecimal.eq sameUnitMatcher (UnitedDecimal.mk .taxfulPrice 10)
      (.plain 10) = false ∧
    UnitedDecimal.eq sameUnitMatcher (UnitedDecimal.mk .taxfulPrice 10)
      (.united (UnitedDecimal.mk .taxfulPrice 10)) = true := by
  refine ⟨((C2_eq_ne_never_raise sameUnitMatcher (UnitedDecimal.mk .taxfulPrice 10)
      (.united (UnitedDecimal.mk .taxlessPrice 10))).1 rfl).1,
    ((C2_eq_ne_never_raise sameUnitMatcher (UnitedDecimal.mk .taxfulPrice 10)
      (.united (UnitedDecimal.mk .taxlessPrice 10))).1 rfl).2,
    ((C2_eq_ne_never_raise sameUnitMatcher (UnitedDecimal.mk .taxfulPrice 10)
      (.plain 10)).1 rfl).1, ?_⟩
  have h := (C2_eq_ne_never_raise sameUnitMatcher
    (UnitedDecimal.mk .taxfulPrice 10)
    (.united (UnitedDecimal.mk .taxfulPrice 10))).2 rfl
  simp [h.1, operandValue]

/-- C3 counterexample: the claimed check ordering is false.  The source's
`__rtruediv__` (embedded by `UnitedDecimal.rtruediv`) runs the
is-a-UnitedDecimal check first, so `5 / TaxfulPrice(10)` fails with the
generic `TypeError`; under the ordering the claim states (embedded by
`UnitedDecimal.rtruedivSpecOrdered`, unit-match check first) the same input
would fail with `UnitMixupError` instead, so the two disagree. -/
theorem C3_reverse_div_check_order_counterexample :
    UnitedDecimal.rtruediv sameUnitMatcher (UnitedDecimal.mk .taxfulPrice 10)
      (.plain 5) =
      .error (.typeError ("Cannot divide non-" ++ unitTagName .taxfulPrice ++
        " with " ++ unitTagName .taxfulPrice)) ∧
    UnitedDecimal.rtruedivSpecOrdered sameUnitMatcher
      (UnitedDecimal.mk .taxfulPrice 10) (.plain 5) =
      .error (.unitMixup (UnitedDecimal.mk .taxfulPrice 10) (.plain 5)
        "Unit mixup") ∧
    UnitedDecimal.rtruediv sameUnitMatcher (UnitedDecimal.mk .taxfulPrice 10)
      (.plain 5) ≠
      UnitedDecimal.rtruedivSpecOrdered sameUnitMatcher
        (UnitedDecimal.mk .taxfulPrice 10) (.plain 5) := by
  refine ⟨rfl, rfl, ?_⟩
  simp [UnitedDecimal.rtruediv, UnitedDecimal.rtruedivSpecOrdered,
    UnitedDecimal.check_units_match, sameUnitMatcher]

/-- C3 amended: for every plain (non-UnitedDecimal) `x`, the reverse
true-division `x / a` always fails with the generic type error regardless of
unit match; the is-the-operand-a-UnitedValue check runs before the unit-match
check, so a unit-mismatch error is raised in preference to the generic type
error only when the right-hand operand is a UnitedValue of non-matching
unit. -/
theorem C3_reverse_div_type_error_amended (m : MatchRule)
    (a : UnitedDecimal) (x : ℚ) (b : UnitedDecimal)
    (h : m a (.united b) = false) :
    a.rtruediv m (.plain x) =
      .error (.typeError ("Cannot divide non-" ++ unitTagName a.unit ++
        " with " ++ unitTagName a.unit)) ∧
    a.rtruediv m (.united b) =
      .error (.unitMixup a (.united b) "Unit mixup") := by
  constructor
  · rfl
  · simp [UnitedDecimal.rtruediv, UnitedDecimal.check_units_match, h]

/-- C3 amended witness: `5 / TaxfulPrice(10)` raises the generic type error,
and reverse division with a `TaxlessPrice` operand raises the unit-mixup
error, under the standard matching rule. -/
theorem C3_reverse_div_type_error_amended_witness :
    UnitedDecimal.rtruediv sameUnitMatcher (UnitedDecimal.mk .taxfulPrice 10)
      (.plain 5) =
      .error (.typeError ("Cannot divide non-" ++ unitTagName .taxfulPrice ++
        " with " ++ unitTagName .taxfulPrice)) ∧
    UnitedDecimal.rtruediv sameUnitMatcher (UnitedDecimal.mk .taxfulPrice 10)
      (.united (UnitedDecimal.mk .taxlessPrice 2)) =
      .error (.unitMixup (UnitedDecimal.mk .taxfulPrice 10)
        (.united (UnitedDecimal.mk .taxlessPrice 2)) "Unit mixup") :=
  C3_reverse_div_type_error_amended sameUnitMatcher
    (UnitedDecimal.mk .taxfulPrice 10) 5 (UnitedDecimal.mk .taxlessPrice 2)
    rfl

/-- C4: for same-unit `a` and `b` (under the modelled concrete matching
rule), `a + b` and `a - b` succeed, the results carry `a`'s unit, and
`(a + b) - b == a` holds exactly, `==` being the module's own equality. -/
theorem C4_same_unit_add_sub_roundtrip (a b : UnitedDecimal)
    (h : a.unit = b.unit) :
    a.add sameUnitMatcher (.united b) = .ok (a.new (a.value + b.value)) ∧
    a.sub sameUnitMatcher (.united b) = .ok (a.new (a.value - b.value)) ∧
    (a.new (a.value + b.value)).unit = a.unit ∧
    (a.new (a.value - b.value)).unit = a.unit ∧
    (a.new (a.value + b.value)).sub sameUnitMatcher (.united b) =
      .ok ((a.new (a.value + b.value)).new (a.value + b.value - b.value)) ∧
    ((a.new (a.value + b.value)).new (a.value + b.value - b.value)).eq
      sameUnitMatcher (.united a) = true := by
  refine ⟨?_, ?_, rfl, rfl, ?_, ?_⟩
  · simp [UnitedDecimal.add, UnitedDecimal.check_units_match,
      sameUnitMatcher, h, operandValue]
  · simp [UnitedDecimal.sub, UnitedDecimal.check_units_match,
      sameUnitMatcher, h, operandValue]
  · simp [UnitedDecimal.sub, UnitedDecimal.check_units_match,
      sameUnitMatcher, UnitedDecimal.new, h, operandValue]
  · simp [UnitedDecimal.eq, sameUnitMatcher, UnitedDecimal.new, operandValue]

/-- C4 witness: `TaxfulPrice(10)` and `TaxfulPrice(2)`. -/
theorem C4_same_unit_add_sub_roundtrip_witness :
    UnitedDecimal.add sameUnitMatcher (UnitedDecimal.mk .taxfulPrice 10)
      (.united (UnitedDecimal.mk .taxfulPrice 2)) =
      .ok ((UnitedDecimal.mk .taxfulPrice 10).new ((10 : ℚ) + 2)) ∧
    ((UnitedDecimal.mk .taxfulPrice 10).new ((10 : ℚ) + 2)).unit =
      UnitTag.taxfulPrice ∧
    (((UnitedDecimal.mk .taxfulPrice 10).new ((10 : ℚ) + 2)).new
        ((10 : ℚ) + 2 - 2)).eq sameUnitMatcher
      (.united (UnitedDecimal.mk .taxfulPrice 10)) = true :=
  ⟨(C4_same_unit_add_sub_roundtrip (UnitedDecimal.mk .taxfulPrice 10)
      (UnitedDecimal.mk .taxfulPrice 2) rfl).1,
   (C4_same_unit_add_sub_roundtrip (UnitedDecimal.mk .taxfulPrice 10)
      (UnitedDecimal.mk .taxfulPrice 2) rfl).2.2.1,
   (C4_same_unit_add_sub_roundtrip (UnitedDecimal.mk .taxfulPrice 10)
      (UnitedDecimal.mk .taxfulPrice 2) rfl).2.2.2.2.2⟩

/-- C5 counterexample: dividing a UnitedDecimal by the plain number `0` does
not succeed — the underlying decimal primitive raises its division-by-zero
error — so "dividing a UnitedValue by a plain number succeeds" fails at the
explicit input `TaxfulPrice(1) / 0`. -/
theorem C5_division_by_plain_zero_counterexample :
    UnitedDecimal.truediv sameUnitMatcher (UnitedDecimal.mk .taxfulPrice 1)
      (.plain 0) = .error .zeroDivision := by
  simp [UnitedDecimal.truediv]

/-- C5 amended: for same-unit `a`, `b` (under the modelled concrete matching
rule) with `b ≠ 0`, `a / b` succeeds and returns a plain dimensionless
decimal equal to `a.value / b.value`; and dividing a UnitedDecimal by a
nonzero plain number succeeds and yields a result carrying the same unit as
the dividend (a zero plain divisor raises the decimal division-by-zero
error). -/
theorem C5_truediv_amended (a b : UnitedDecimal) (q : ℚ)
    (h : a.unit = b.unit) (hb : b.value ≠ 0) (hq : q ≠ 0) :
    a.truediv sameUnitMatcher (.united b) =
      .ok (.plain (a.value / b.value)) ∧
    a.truediv sameUnitMatcher (.plain q) =
      .ok (.united (a.new (a.value / q))) ∧
    (a.new (a.value / q)).unit = a.unit := by
  refine ⟨?_, ?_, rfl⟩
  · simp [UnitedDecimal.truediv, UnitedDecimal.check_units_match,
      sameUnitMatcher, h, hb]
  · simp [UnitedDecimal.truediv, hq]

/-- C5 amended witness: `TaxfulPrice(10) / TaxfulPrice(2)` and
`TaxfulPrice(10) / 5`. -/
theorem C5_truediv_amended_witness :
    ((2 : ℚ) ≠ 0) ∧ ((5 : ℚ) ≠ 0) ∧
    UnitedDecimal.truediv sameUnitMatcher (UnitedDecimal.mk .taxfulPrice 10)
      (.united (UnitedDecimal.mk .taxfulPrice 2)) =
      .ok (.plain ((10 : ℚ) / 2)) ∧
    UnitedDecimal.truediv sameUnitMatcher (UnitedDecimal.mk .taxfulPrice 10)
      (.plain 5) =
      .ok (.united ((UnitedDecimal.mk .taxfulPrice 10).new ((10 : ℚ) / 5))) :=
  ⟨by decide, by decide,
   (C5_truediv_amended (UnitedDecimal.mk .taxfulPrice 10)
      (UnitedDecimal.mk .taxfulPrice 2) 5 rfl (by decide) (by decide)).1,
   (C5_truediv_amended (UnitedDecimal.mk .taxfulPrice 10)
      (UnitedDecimal.mk .taxfulPrice 2) 5 rfl (by decide) (by decide)).2.1⟩

/-- C6: for every UnitedDecimal `a` and plain scalar `s`, `a * s` and
`s * a` both succeed, return a value of `a`'s unit, and equal
`a.new(a.value * s)` (the source's `with_value`/`new`). -/
theorem C6_scalar_multiplication (a : UnitedDecimal) (s : ℚ) :
    a.mul (.plain s) = .ok (a.new (a.value * s)) ∧
    a.rmul (.plain s) = .ok (a.new (a.value * s)) ∧
    (a.new (a.value * s)).unit = a.unit := by
  exact ⟨rfl, rfl, rfl⟩

/-- C7: `divmod` requires the other operand to be a UnitedDecimal of
matching unit (a plain operand fails with the generic type error, for any
matching rule); on same-unit operands with nonzero divisor it returns the
pair of a dimensionless plain-decimal quotient and a remainder carrying
`a`'s unit; and `divmod(TaxfulPrice(7), TaxfulPrice(2))` returns
`(Decimal(3), TaxfulPrice(1))`. -/
theorem C7_divmod_contract (m : MatchRule) (a b : UnitedDecimal) (q : ℚ)
    (h : a.unit = b.unit) (hb : b.value ≠ 0) :
    a.divmod m (.plain q) =
      .error (.typeError ("Cannot divmod " ++ unitTagName a.unit ++
        " with non-" ++ unitTagName a.unit)) ∧
    a.divmod sameUnitMatcher (.united b) =
      .ok ((decTrunc (a.value / b.value) : ℚ),
           a.new (decRem a.value b.value)) ∧
    (a.new (decRem a.value b.value)).unit = a.unit ∧
    UnitedDecimal.divmod sameUnitMatcher (UnitedDecimal.mk .taxfulPrice 7)
      (.united (UnitedDecimal.mk .taxfulPrice 2)) =
      .ok ((3 : ℚ), UnitedDecimal.mk .taxfulPrice 1) := by
  refine ⟨rfl, ?_, rfl, ?_⟩
  · simp [UnitedDecimal.divmod, UnitedDecimal.check_units_match,
      sameUnitMatcher, h, hb]
  · have htr : decTrunc ((7 : ℚ) / 2) = 3 := by
      rw [decTrunc, if_pos (by norm_num)]
      rw [Int.floor_eq_iff]
      norm_num
    have hrem : decRem (7 : ℚ) 2 = 1 := by
      rw [decRem, htr]; norm_num
    simp [UnitedDecimal.divmod, UnitedDecimal.check_units_match,
      sameUnitMatcher, UnitedDecimal.new, htr, hrem]

/-- C7 witness: instantiated at `TaxfulPrice(7)`, `TaxfulPrice(2)` and plain
operand `5`. -/
theorem C7_divmod_contract_witness :
    ((2 : ℚ) ≠ 0) ∧
    UnitedDecimal.divmod sameUnitMatcher (UnitedDecimal.mk .taxfulPrice 7)
      (.plain 5) =
      .error (.typeError ("Cannot divmod " ++ unitTagName .taxfulPrice ++
        " with non-" ++ unitTagName .taxfulPrice)) ∧
    UnitedDecimal.divmod sameUnitMatcher (UnitedDecimal.mk .taxfulPrice 7)
      (.united (UnitedDecimal.mk .taxfulPrice 2)) =
      .ok ((3 : ℚ), UnitedDecimal.mk .taxfulPrice 1) :=
  ⟨by decide,
   (C7_divmod_contract sameUnitMatcher (UnitedDecimal.mk .taxfulPrice 7)
      (UnitedDecimal.mk .taxfulPrice 2) 5 rfl (by decide)).1,
   (C7_divmod_contract sameUnitMatcher (UnitedDecimal.mk .taxfulPrice 7)
      (UnitedDecimal.mk .taxfulPrice 2) 5 rfl (by decide)).2.2.2⟩

/-- C8: every categorically disallowed operation raises the generic
`TypeError`, never `UnitMixupError`, irrespective of units: multiplying two
UnitedDecimals (`b` ranges over all units, matching ones included), raising
to any power, and floor-division, modulo, divmod or reverse true-division
with a plain non-UnitedDecimal operand (for any matching rule `m`). -/
theorem C8_categorical_operations_raise_type_error (m : MatchRule)
    (a b : UnitedDecimal) (c : Operand) (q : ℚ) :
    a.mul (.united b) =
      .error (.typeError ("Cannot multiply " ++ a.reprStr ++ " with " ++
        b.reprStr)) ∧
    a.pow c =
      .error (.typeError (unitTagName a.unit ++ " cannot be powered")) ∧
    a.floordiv m (.plain q) =
      .error (.typeError ("Cannot floor-div " ++ unitTagName a.unit ++
        " with non-" ++ unitTagName a.unit)) ∧
    a.rfloordiv m (.plain q) =
      .error (.typeError ("Cannot floor-div non-" ++ unitTagName a.unit ++
        " with " ++ unitTagName a.unit)) ∧
    a.mod m (.plain q) =
      .error (.typeError ("Cannot modulo " ++ unitTagName a.unit ++
        " with non-" ++ unitTagName a.unit)) ∧
    a.divmod m (.plain q) =
      .error (.typeError ("Cannot divmod " ++ unitTagName a.unit ++
        " with non-" ++ unitTagName a.unit)) ∧
    a.rtruediv m (.plain q) =
      .error (.typeError ("Cannot divide non-" ++ unitTagName a.unit ++
        " with " ++ unitTagName a.unit)) :=
  ⟨rfl, rfl, rfl, rfl, rfl, rfl, rfl⟩

/-- C9: the right-hand addition and subtraction variants delegate to the
same-unit addition contract — `__radd__` is exactly `__add__`, and
`s - a` is computed as `(-a) + s` — and whenever the concrete
`unit_matches_with` rule accepts the plain operand, the plain number acts as
a dimensionless magnitude whose result inherits `a`'s unit:
`s + a = ⟨a.unit, a.value + s⟩` and `s - a = ⟨a.unit, s - a.value⟩`. -/
theorem C9_reverse_add_sub_contract (m : MatchRule) (a : UnitedDecimal)
    (other : Operand) (s : ℚ) (hadd : m a (.plain s) = true)
    (hsub : m a.neg (.plain s) = true) :
    a.radd m other = a.add m other ∧
    a.rsub m other = a.neg.add m other ∧
    a.radd m (.plain s) = .ok (UnitedDecimal.mk a.unit (a.value + s)) ∧
    a.rsub m (.plain s) = .ok (UnitedDecimal.mk a.unit (s - a.value)) := by
  refine ⟨rfl, rfl, ?_, ?_⟩
  · simp [UnitedDecimal.radd, UnitedDecimal.add,
      UnitedDecimal.check_units_match, hadd, operandValue, UnitedDecimal.new]
  · have hsub' : m (UnitedDecimal.mk a.unit (-a.value)) (.plain s) = true := by
      simpa [UnitedDecimal.neg, UnitedDecimal.new] using hsub
    simp [UnitedDecimal.rsub, UnitedDecimal.add, UnitedDecimal.neg,
      UnitedDecimal.check_units_match, hsub', operandValue, UnitedDecimal.new,
      sub_eq_neg_add]

/-- C9 witness: `5 + TaxfulPrice(10)` and `5 - TaxfulPrice(10)` under the
modelled plain-tolerant matching rule. -/
theorem C9_reverse_add_sub_contract_witness :
    plainTolerantMatcher (UnitedDecimal.mk .taxfulPrice 10) (.plain 5) =
      true ∧
    UnitedDecimal.radd plainTolerantMatcher
      (UnitedDecimal.mk .taxfulPrice 10) (.plain 5) =
      .ok (UnitedDecimal.mk .taxfulPrice ((10 : ℚ) + 5)) ∧
    UnitedDecimal.rsub plainTolerantMatcher
      (UnitedDecimal.mk .taxfulPrice 10) (.plain 5) =
      .ok (UnitedDecimal.mk .taxfulPrice ((5 : ℚ) - 10)) :=
  ⟨rfl,
   (C9_reverse_add_sub_contract plainTolerantMatcher
      (UnitedDecimal.mk .taxfulPrice 10) (.plain 5) 5 rfl rfl).2.2.1,
   (C9_reverse_add_sub_contract plainTolerantMatcher
      (UnitedDecimal.mk .taxfulPrice 10) (.plain 5) 5 rfl rfl).2.2.2⟩

/-- C10: the source declares `class UnitMixupError(TypeError)`, so the
unit-mismatch error class is a subclass of the generic type error class:
every raised `unitMixup` value is catchable by a `TypeError` handler even
though its own class is not `TypeError` — the two error kinds of the design
are not disjoint. -/
theorem C10_unit_mixup_is_a_type_error (a : UnitedDecimal) (b : Operand)
    (s t : String) :
    isSubclassOf .unitMixupError .typeError = true ∧
    catchableAs (UDError.unitMixup a b s) .typeError = true ∧
    catchableAs (UDError.typeError t) .typeError = true ∧
    UDError.excKind (UDError.unitMixup a b s) ≠ ExcKind.typeError := by
  refine ⟨rfl, rfl, rfl, ?_⟩
  simp [UDError.excKind]
